import Mathlib

/-!
Shallow embedding of the task-capture assistant's learning core
(`brain/learner.py` and `brain/suggester.py`).

Conventions used throughout:
* Python strings are Lean `String`; the lower-casing, substring search,
  whitespace splitting and character replacement done by the source are
  implemented over `String.data` so that every definition evaluates inside
  the kernel.
* Python `datetime.now()` is an input: each learn call carries the `day`
  (`datetime.weekday()`, Monday = 0) and `hour` fields the source extracts
  from it; the stored `timestamp` carries no further observable content.
* The sklearn calls (`TfidfVectorizer.fit_transform`, `KMeans.fit_predict`)
  are oracles supplied as explicit arguments: `FitOutcome` is what the
  vectorizer run did (produced a matrix, or raised), and the KMeans oracle
  `Nat → KMeansOutcome` maps the requested cluster count to either a label
  row (one label per task, as `fit_predict` returns) or a raised exception.
  The shared `self.vectorizer` object lives inside that oracle.
* Python `defaultdict(list)` maps are functions `String → List String`
  defaulting to `[]`; dicts iterated with `.items()` are association lists
  in insertion order.
* Float confidences are embedded as `ℚ`; the divisions the source performs
  are exact in binary floating point or only compared, so rational
  arithmetic is faithful for every property stated here.
-/

/-- Lower-case a string character by character, as Python `str.lower` does on
the ASCII texts handled by the program. -/
def lowerStr (s : String) : String := ⟨s.data.map Char.toLower⟩

/-- Check that the first list is a prefix of the second (character lists). -/
def chStarts : List Char → List Char → Bool
  | [], _ => true
  | _ :: _, [] => false
  | a :: as, b :: bs => a = b && chStarts as bs

/-- Check that `needle` occurs contiguously inside the second list: Python
`needle in haystack` on strings. -/
def chHas (needle : List Char) : List Char → Bool
  | [] => chStarts needle []
  | c :: rest => chStarts needle (c :: rest) || chHas needle rest

/-- Python `word in text` substring containment. -/
def strHas (text word : String) : Bool := chHas word.data text.data

/-- Python `any(word in text for word in words)`. -/
def containsAny (text : String) (words : List String) : Bool :=
  words.any (fun w => strHas text w)

/-- Keyword list of the `development` rule of `predict_category`
(learner.py line 147). -/
def devWords : List String :=
  ["git", "code", "programming", "development", "api", "database", "deploy", "fix bug", "commit"]

/-- Keyword list of the `work` rule of `predict_category` (learner.py line 151). -/
def workWords : List String :=
  ["meeting", "call", "work", "email", "send", "presentation", "report"]

/-- Keyword list of the `shopping` rule of `predict_category` (learner.py line 155). -/
def shoppingWords : List String :=
  ["buy", "shop", "grocery", "get", "pick up", "purchase"]

/-- Keyword list of the `health` rule of `predict_category` (learner.py line 159). -/
def healthWords : List String :=
  ["exercise", "gym", "run", "walk", "health", "doctor", "workout"]

/-- Keyword list of the `home` rule of `predict_category` (learner.py line 163). -/
def homeWords : List String :=
  ["clean", "wash", "cook", "home", "house", "repair", "organize"]

/-- Embedding of the static method `JarvisLearner.predict_category`
(learner.py lines 140-167): lower-case the text, then walk the if/elif
keyword ladder. The `user_id` parameter is accepted and ignored, exactly as
in the source. -/
def predict_category (task_text : String) (user_id : String) : String :=
  let text := lowerStr task_text
  if containsAny text devWords then "development"
  else if containsAny text workWords then "work"
  else if containsAny text shoppingWords then "shopping"
  else if containsAny text healthWords then "health"
  else if containsAny text homeWords then "home"
  else "general"

/-- Spec-side KeywordClassifier (spec section 4.1), written from the spec
text for comparison with `predict_category`: a pure function of the already
lower-cased text, trying the rules in the fixed precedence order
development, work, shopping, health, home and answering `general` when no
rule matches. -/
def keyword_classify (lowered_text : String) : String :=
  if containsAny lowered_text devWords then "development"
  else if containsAny lowered_text workWords then "work"
  else if containsAny lowered_text shoppingWords then "shopping"
  else if containsAny lowered_text healthWords then "health"
  else if containsAny lowered_text homeWords then "home"
  else "general"

/-- Embedding of the `task_data` dict built by `learn_from_task`
(learner.py lines 40-45): the stored text plus the `day` (weekday) and
`hour` extracted from the timestamp. -/
structure TaskRec where
  text : String
  day : Nat
  hour : Nat
deriving DecidableEq

/-- Carrier for the TF-IDF matrix produced by `fit_transform`; its contents
are opaque to every property proved here, only presence matters. -/
def Vectors : Type := List (List ℚ)

instance : DecidableEq Vectors := by
  unfold Vectors
  infer_instance

/-- Embedding of one entry of `self.user_patterns` (learner.py lines 16-22).
`categories` is an insertion-ordered association list (Python dict);
`time_patterns` is the `defaultdict(list)` as a total function defaulting
to `[]`. -/
structure Profile where
  tasks : List TaskRec
  task_texts : List String
  vectors : Option Vectors
  categories : List (String × List TaskRec)
  time_patterns : String → List String

/-- Default profile produced by the `defaultdict` factory of
`self.user_patterns`. -/
def defaultProfile : Profile :=
  { tasks := [], task_texts := [], vectors := none, categories := [], time_patterns := fun _ => [] }

/-- State of the learner: the `user_patterns` map, total with the
`defaultdict` default. -/
def LearnerState : Type := String → Profile

/-- State of a fresh `JarvisLearner`. -/
def initState : LearnerState := fun _ => defaultProfile

/-- Append a task to a `defaultdict(list)`-backed category dict: existing
keys keep their position, a new key is inserted at the end, matching Python
dict insertion order. -/
def appendToBucket : List (String × List TaskRec) → String → TaskRec → List (String × List TaskRec)
  | [], k, t => [(k, [t])]
  | (k0, ts) :: rest, k, t =>
    if k0 = k then (k0, ts ++ [t]) :: rest else (k0, ts) :: appendToBucket rest k t

/-- Look a bucket up in a category dict, empty when absent. -/
def bucketOf (cats : List (String × List TaskRec)) (k : String) : List TaskRec :=
  (((cats.find? (fun p => p.1 == k)).map Prod.snd).getD [])

/-- Keyword list of the `shopping` branch of `_simple_categorize`
(learner.py line 105). -/
def simpleShopWords : List String := ["buy", "shop", "grocery", "get", "pick up"]

/-- Keyword list of the `work` branch of `_simple_categorize` (learner.py line 107). -/
def simpleWorkWords : List String := ["meeting", "call", "work", "email", "send"]

/-- Keyword list of the `health` branch of `_simple_categorize` (learner.py line 109). -/
def simpleHealthWords : List String := ["exercise", "gym", "run", "walk", "health"]

/-- Keyword list of the `home` branch of `_simple_categorize` (learner.py line 111). -/
def simpleHomeWords : List String := ["clean", "wash", "cook", "home", "house"]

/-- Bucket chosen for one task by the if/elif ladder inside the
`_simple_categorize` loop (learner.py lines 103-114). -/
def simpleBucket (text : String) : String :=
  if containsAny (lowerStr text) simpleShopWords then "shopping"
  else if containsAny (lowerStr text) simpleWorkWords then "work"
  else if containsAny (lowerStr text) simpleHealthWords then "health"
  else if containsAny (lowerStr text) simpleHomeWords then "home"
  else "general"

/-- Embedding of `JarvisLearner._simple_categorize` (learner.py lines
97-116): rebuild `categories` from scratch by bucketing every stored task
through the keyword ladder. -/
def simple_categorize (ud : Profile) : Profile :=
  { ud with
    categories := ud.tasks.foldl (fun cats t => appendToBucket cats (simpleBucket t.text) t) [] }

/-- Outcome of a `KMeans(...).fit_predict(vectors)` call: the returned label
row (one label per task row, in task order), or a raised exception. -/
inductive KMeansOutcome where
  | ok (labels : List Nat)
  | failed
deriving DecidableEq

/-- Cluster-count expression of `_discover_categories`
(learner.py line 80): `min(3, max(2, n_tasks // 3))`. -/
def n_clusters_of (n_tasks : Nat) : Nat := min 3 (max 2 (n_tasks / 3))

/-- Group tasks by cluster label under names `type_<label>` (learner.py
lines 87-91); the KMeans label row pairs with the task list positionally. -/
def groupByCluster (tasks : List TaskRec) (labels : List Nat) : List (String × List TaskRec) :=
  (tasks.zip labels).foldl (fun cats p => appendToBucket cats ("type_" ++ toString p.2) p.1) []

/-- Embedding of `JarvisLearner._discover_categories` (learner.py lines
74-95). The body is a `try`: compute the cluster count, and only when
`n_tasks >= 4` run KMeans and overwrite `categories`; nothing in the
`n_tasks < 4` path can raise. The `except` arm, reached exactly when the
KMeans oracle reports a raised exception, runs `_simple_categorize`. -/
def discover_categories (ud : Profile) (kmeans : Nat → KMeansOutcome) : Profile :=
  if 4 ≤ ud.task_texts.length then
    match kmeans (n_clusters_of ud.task_texts.length) with
    | .ok labels => { ud with categories := groupByCluster ud.tasks labels }
    | .failed => simple_categorize ud
  else ud

/-- Outcome of a `self.vectorizer.fit_transform(task_texts)` call: the
TF-IDF matrix, or a raised exception (for instance a degenerate
vocabulary). -/
inductive FitOutcome where
  | ok (v : Vectors)
  | failed
deriving DecidableEq

/-- Embedding of `JarvisLearner._update_learning` (learner.py lines 59-72):
on fit success store the matrix and discover categories; when
`fit_transform` raises, the `except` arm only logs, leaving the profile
untouched (`_discover_categories` traps its own exceptions and so never
propagates one here). -/
def update_learning (ud : Profile) (fit : FitOutcome) (kmeans : Nat → KMeansOutcome) : Profile :=
  match fit with
  | .ok v => discover_categories { ud with vectors := some v } kmeans
  | .failed => ud

/-- Embedding of `JarvisLearner._learn_time_patterns` (learner.py lines
118-124): append the task text under the single key
`f"{day}_{hour}"`. -/
def learn_time_patterns (ud : Profile) (td : TaskRec) : Profile :=
  let key := toString td.day ++ "_" ++ toString td.hour
  { ud with
    time_patterns := fun k => if k = key then ud.time_patterns k ++ [td.text] else ud.time_patterns k }

/-- Embedding of `JarvisLearner.learn_from_task` (learner.py lines 36-57):
build the task record, append it to the user profile, run
`_update_learning` once at least 3 texts are stored, then record time
patterns. The `day`/`hour` arguments stand for `datetime.now()`, and the
sklearn behavior enters through the `fit`/`kmeans` oracles. -/
def learn_from_task (st : LearnerState) (task_text user_id : String) (day hour : Nat)
    (fit : FitOutcome) (kmeans : Nat → KMeansOutcome) : LearnerState :=
  let td : TaskRec := ⟨task_text, day, hour⟩
  let ud0 := st user_id
  let ud1 := { ud0 with tasks := ud0.tasks ++ [td], task_texts := ud0.task_texts ++ [task_text] }
  let ud2 := if 3 ≤ ud1.task_texts.length then update_learning ud1 fit kmeans else ud1
  let ud3 := learn_time_patterns ud2 td
  Function.update st user_id ud3

/-- One call of `learn_from_task` together with the wall clock and sklearn
behavior observed during it. -/
structure Event where
  text : String
  uid : String
  day : Nat
  hour : Nat
  fit : FitOutcome
  kmeans : Nat → KMeansOutcome

/-- Run a sequence of learn calls from a given state. -/
def runFrom (st : LearnerState) (es : List Event) : LearnerState :=
  es.foldl (fun s e => learn_from_task s e.text e.uid e.day e.hour e.fit e.kmeans) st

/-- Run a sequence of learn calls on a fresh learner. -/
def runEvents (es : List Event) : LearnerState := runFrom initState es

/-- Suggestion dict built by `JarvisSuggester` (suggester.py): the literal
`task`/`reason`/`confidence`/`type` entries. -/
structure Suggestion where
  task : String
  reason : String
  confidence : ℚ
  type : String
deriving DecidableEq

/-- Comparison used by `suggestions.sort(key=..., reverse=True)`
(suggester.py line 36): descending confidence. -/
def sugGE (a b : Suggestion) : Prop := b.confidence ≤ a.confidence

instance : DecidableRel sugGE :=
  fun a b => inferInstanceAs (Decidable (b.confidence ≤ a.confidence))

instance : IsTotal Suggestion sugGE := ⟨fun a b => le_total b.confidence a.confidence⟩

instance : IsTrans Suggestion sugGE := ⟨fun _ _ _ h1 h2 => le_trans h2 h1⟩

/-- First occurrences of each element, in order: the key sequence of a
Python `Counter` built from a list. -/
def dedupFirst (l : List String) : List String :=
  l.foldl (fun acc x => if acc.contains x then acc else acc ++ [x]) []

/-- Embedding of `Counter(l).most_common(n)`: pair each distinct element
with its count, sort by count descending (stably, so ties keep first-
occurrence order, as CPython's sorted does), and keep the first `n`. -/
def mostCommon (l : List String) (n : Nat) : List (String × Nat) :=
  (List.insertionSort (fun a b : String × Nat => b.2 ≤ a.2)
    ((dedupFirst l).map (fun x => (x, l.count x)))).take n

/-- Python `Counter(l).most_common(1)[0][0]`; callers guard `l` nonempty, so
the fallback default is unreachable. -/
def mostCommonHead (l : List String) : String := ((mostCommon l 1).headD ("", 0)).1

/-- Weekday names as produced by `strftime("%A")` under the Monday=0
`weekday()` convention. -/
def dayName : Nat → String
  | 0 => "Monday"
  | 1 => "Tuesday"
  | 2 => "Wednesday"
  | 3 => "Thursday"
  | 4 => "Friday"
  | 5 => "Saturday"
  | _ => "Sunday"

/-- Observable part of `datetime.now()` inside the suggester: weekday and
hour. -/
structure PyTime where
  day : Nat
  hour : Nat

/-- Embedding of `JarvisSuggester._get_time_based_suggestions`
(suggester.py lines 39-83). The exact-key branch reads
`f"day_{current_day}_hour_{current_hour}"`, the period branch reads the
coarse bucket name; a key absent from the defaultdict-as-function reads as
`[]`, which the length guards then reject, exactly as the Python membership
test does. -/
def get_time_based_suggestions (ud : Profile) (now : PyTime) : List Suggestion :=
  let time_key := "day_" ++ toString now.day ++ "_hour_" ++ toString now.hour
  let tasks := ud.time_patterns time_key
  let part1 : List Suggestion :=
    if 2 ≤ tasks.length then
      [{ task := mostCommonHead tasks,
         reason := "You usually do this on " ++ dayName now.day ++ " at "
           ++ toString now.hour ++ ":00",
         confidence := min ((tasks.length : ℚ) / 5) 0.9,
         type := "time_pattern" }]
    else []
  let time_period :=
    if 6 ≤ now.hour ∧ now.hour < 12 then "morning"
    else if 12 ≤ now.hour ∧ now.hour < 17 then "afternoon"
    else if 17 ≤ now.hour ∧ now.hour < 21 then "evening"
    else "night"
  let ptasks := ud.time_patterns time_period
  let part2 : List Suggestion :=
    if 3 ≤ ptasks.length then
      (mostCommon ptasks 2).map (fun tc =>
        { task := tc.1,
          reason := "Common " ++ time_period ++ " task for you",
          confidence := min ((tc.2 : ℚ) / (ptasks.length : ℚ)) 0.8,
          type := "time_period" })
    else []
  part1 ++ part2

/-- Python `category.replace("_", " ")` for the single-character pattern
used by the suggester. -/
def underscoreToSpace (s : String) : String :=
  ⟨s.data.map (fun c => if c = '_' then ' ' else c)⟩

/-- Embedding of `JarvisSuggester._get_category_suggestions` (suggester.py
lines 85-103): one candidate per stored category holding at least 3 tasks,
in dict insertion order. -/
def get_category_suggestions (ud : Profile) : List Suggestion :=
  (ud.categories.filter (fun p => 3 ≤ p.2.length)).map (fun p =>
    { task := mostCommonHead (p.2.map (fun t => t.text)),
      reason := "Popular task in your " ++ underscoreToSpace p.1 ++ " category",
      confidence := min ((p.2.length : ℚ) / 10) 0.7,
      type := "category_pattern" })

/-- Words of a text as Python `text.split()` sees them, keeping those longer
than 3 characters and lower-casing them (suggester.py line 120). Splitting
is at whitespace; the length test is on the raw token and lower-casing
preserves length, so the token set matches Python's. -/
def longWords (text : String) : List String :=
  ((text.split (fun c => c.isWhitespace)).filter (fun w => 3 < w.length)).map lowerStr

/-- Embedding of `JarvisSuggester._get_similarity_suggestions` (suggester.py
lines 105-134): needs at least 5 tasks, mines the last 5 for recurring long
words, and emits a themed candidate for each of the top 3 words occurring
at least twice. -/
def get_similarity_suggestions (ud : Profile) : List Suggestion :=
  if ud.tasks.length < 5 then []
  else
    let recent := ud.tasks.drop (ud.tasks.length - 5)
    let recent_words := recent.foldl (fun acc t => acc ++ longWords t.text) []
    if recent_words = [] then []
    else
      ((mostCommon recent_words 3).filter (fun tc => 2 ≤ tc.2)).map (fun tc =>
        { task := "Consider another " ++ tc.1 ++ "-related task",
          reason := "You\x27ve been focusing on " ++ tc.1 ++ " lately",
          confidence := min ((tc.2 : ℚ) / 5) 0.6,
          type := "theme_based" })

/-- Embedding of `JarvisSuggester._get_default_suggestions` (suggester.py
lines 136-162): the fixed time-of-day lookup table for users with no
history. -/
def default_suggestions (hour : Nat) : List Suggestion :=
  if 6 ≤ hour ∧ hour < 10 then
    [{ task := "Plan your day", reason := "Good morning routine",
       confidence := 0.6, type := "default" },
     { task := "Check your calendar", reason := "Start day organized",
       confidence := 0.5, type := "default" }]
  else if 10 ≤ hour ∧ hour < 12 then
    [{ task := "Focus on important work", reason := "Peak productivity time",
       confidence := 0.7, type := "default" }]
  else if 12 ≤ hour ∧ hour < 17 then
    [{ task := "Follow up on pending items", reason := "Good time for follow-ups",
       confidence := 0.6, type := "default" }]
  else if 17 ≤ hour ∧ hour < 21 then
    [{ task := "Plan tomorrow", reason := "Evening planning",
       confidence := 0.7, type := "default" }]
  else
    [{ task := "Prepare for tomorrow", reason := "Wind down routine",
       confidence := 0.5, type := "default" }]

/-- Modelled from the spec: `JarvisSuggester.get_suggestions` calls
`self.learner._load_user_data(user_id)`, a method absent from the
repository sources; spec sections 4.3 and 4.4 describe the suggester as
reading the learner's per-user learned state (the userId-to-UserProfile
map, lazily created), so the load is the `user_patterns` lookup. -/
def load_user_data (st : LearnerState) (user_id : String) : Profile := st user_id

/-- Embedding of `JarvisSuggester.get_suggestions` (suggester.py lines
11-37): defaults for an empty history, otherwise the three candidate
generators concatenated, stably sorted by confidence descending and cut to
5. -/
def get_suggestions (st : LearnerState) (user_id : String) (now : PyTime) : List Suggestion :=
  if (load_user_data st user_id).tasks = [] then default_suggestions now.hour
  else
    (List.insertionSort sugGE
      (get_time_based_suggestions (load_user_data st user_id) now
        ++ get_category_suggestions (load_user_data st user_id)
        ++ get_similarity_suggestions (load_user_data st user_id))).take 5

/-- Similarity record returned by the learner's similar-task lookup. -/
structure SimilarTask where
  text : String
  similarity : ℚ
deriving DecidableEq

/-- Comparison ranking similar tasks by descending similarity. -/
def simGE (a b : SimilarTask) : Prop := b.similarity ≤ a.similarity

instance : DecidableRel simGE :=
  fun a b => inferInstanceAs (Decidable (b.similarity ≤ a.similarity))

/-- Modelled from the spec: `JarvisLearner.get_similar_tasks` is called by
`JarvisSuggester.get_smart_completions` but absent from the repository
sources. Spec section 4.3: it requires a fitted vector space and, when none
exists, returns an empty sequence without raising; otherwise it returns up
to `limit` historical tasks ranked by cosine similarity between the partial
text and each stored text under the current vector space — that similarity
function is abstracted as the `sim` oracle. -/
def get_similar_tasks (st : LearnerState) (partial_text user_id : String) (limit : Nat)
    (sim : String → String → ℚ) : List SimilarTask :=
  let ud := st user_id
  match ud.vectors with
  | none => []
  | some _ =>
    (List.insertionSort simGE
      (ud.task_texts.map (fun t => SimilarTask.mk t (sim partial_text t)))).take limit

/-- Concrete task records for the end-to-end scenario of the spec (section
8): the wall-clock fields are arbitrary since no property below reads
them. -/
def tMilk : TaskRec := ⟨"buy milk", 0, 9⟩

/-- Task record for the text `call mom`. -/
def tMom : TaskRec := ⟨"call mom", 0, 9⟩

/-- Task record for the text `go for a run`. -/
def tRun : TaskRec := ⟨"go for a run", 0, 9⟩

/-- Task record for the text `buy bread`. -/
def tBread : TaskRec := ⟨"buy bread", 0, 9⟩

/-- Profile of a user holding exactly the first 3 scenario tasks. -/
def ud3 : Profile :=
  { tasks := [tMilk, tMom, tRun],
    task_texts := ["buy milk", "call mom", "go for a run"],
    vectors := none, categories := [], time_patterns := fun _ => [] }

/-- Profile of a user holding all 4 scenario tasks. -/
def ud4 : Profile :=
  { tasks := [tMilk, tMom, tRun, tBread],
    task_texts := ["buy milk", "call mom", "go for a run", "buy bread"],
    vectors := none, categories := [], time_patterns := fun _ => [] }

/-- KMeans oracle that always raises. -/
def kmFail : Nat → KMeansOutcome := fun _ => KMeansOutcome.failed

lemma simple_categorize_tasks (ud : Profile) : (simple_categorize ud).tasks = ud.tasks := rfl

lemma simple_categorize_texts (ud : Profile) :
    (simple_categorize ud).task_texts = ud.task_texts := rfl

lemma simple_categorize_vectors (ud : Profile) :
    (simple_categorize ud).vectors = ud.vectors := rfl

lemma discover_tasks (ud : Profile) (km : Nat → KMeansOutcome) :
    (discover_categories ud km).tasks = ud.tasks := by
  unfold discover_categories
  split
  · split <;> rfl
  · rfl

lemma discover_texts (ud : Profile) (km : Nat → KMeansOutcome) :
    (discover_categories ud km).task_texts = ud.task_texts := by
  unfold discover_categories
  split
  · split <;> rfl
  · rfl

lemma discover_vectors (ud : Profile) (km : Nat → KMeansOutcome) :
    (discover_categories ud km).vectors = ud.vectors := by
  unfold discover_categories
  split
  · split <;> rfl
  · rfl

lemma update_learning_tasks (ud : Profile) (fit : FitOutcome) (km : Nat → KMeansOutcome) :
    (update_learning ud fit km).tasks = ud.tasks := by
  cases fit with
  | ok v => exact discover_tasks _ _
  | failed => rfl

lemma update_learning_texts (ud : Profile) (fit : FitOutcome) (km : Nat → KMeansOutcome) :
    (update_learning ud fit km).task_texts = ud.task_texts := by
  cases fit with
  | ok v => exact discover_texts _ _
  | failed => rfl

lemma ltp_tasks (ud : Profile) (td : TaskRec) : (learn_time_patterns ud td).tasks = ud.tasks := rfl

lemma ltp_texts (ud : Profile) (td : TaskRec) :
    (learn_time_patterns ud td).task_texts = ud.task_texts := rfl

lemma ltp_vectors (ud : Profile) (td : TaskRec) :
    (learn_time_patterns ud td).vectors = ud.vectors := rfl

lemma ltp_categories (ud : Profile) (td : TaskRec) :
    (learn_time_patterns ud td).categories = ud.categories := rfl

/-- Invariant maintained by every learn call: task list and text list stay
aligned, and a profile with fewer than 3 texts has never been through
`_update_learning`, so its categories and vector space are untouched. -/
def StateInv (st : LearnerState) : Prop :=
  ∀ u, (st u).tasks.length = (st u).task_texts.length ∧
    ((st u).task_texts.length < 3 → (st u).categories = [] ∧ (st u).vectors = none)

lemma initState_inv : StateInv initState := by
  intro u
  exact ⟨rfl, fun _ => ⟨rfl, rfl⟩⟩

lemma learn_from_task_self (st : LearnerState) (text u : String) (day hour : Nat)
    (fit : FitOutcome) (km : Nat → KMeansOutcome) :
    (learn_from_task st text u day hour fit km) u =
      learn_time_patterns
        (if 3 ≤ (st u).task_texts.length + 1 then
          update_learning
            { (st u) with
              tasks := (st u).tasks ++ [TaskRec.mk text day hour],
              task_texts := (st u).task_texts ++ [text] } fit km
        else
          { (st u) with
            tasks := (st u).tasks ++ [TaskRec.mk text day hour],
            task_texts := (st u).task_texts ++ [text] })
        (TaskRec.mk text day hour) := by
  unfold learn_from_task
  rw [Function.update_same]
  simp [List.length_append]

lemma learn_from_task_other (st : LearnerState) (text u : String) (day hour : Nat)
    (fit : FitOutcome) (km : Nat → KMeansOutcome) (v : String) (hv : v ≠ u) :
    (learn_from_task st text u day hour fit km) v = st v := by
  unfold learn_from_task
  exact Function.update_noteq hv _ _

lemma learn_preserves_inv (st : LearnerState) (text u : String) (day hour : Nat)
    (fit : FitOutcome) (km : Nat → KMeansOutcome) (h : StateInv st) :
    StateInv (learn_from_task st text u day hour fit km) := by
  intro v
  by_cases hv : v = u
  · subst hv
    rw [learn_from_task_self]
    by_cases hlen : 3 ≤ (st v).task_texts.length + 1
    · rw [if_pos hlen]
      constructor
      · rw [ltp_tasks, ltp_texts, update_learning_tasks, update_learning_texts]
        simp [(h v).1]
      · intro hcon
        rw [ltp_texts, update_learning_texts] at hcon
        simp only [List.length_append, List.length_cons, List.length_nil] at hcon
        exact absurd hlen (by omega)
    · rw [if_neg hlen]
      have hsmall : (st v).task_texts.length < 3 := by omega
      have hold := (h v).2 (by omega)
      constructor
      · rw [ltp_tasks, ltp_texts]
        simp [(h v).1]
      · intro _
        rw [ltp_categories, ltp_vectors]
        exact hold
  · rw [learn_from_task_other st text u day hour fit km v hv]
    exact h v

lemma runFrom_inv (es : List Event) (st : LearnerState) (h : StateInv st) :
    StateInv (runFrom st es) := by
  induction es generalizing st with
  | nil => exact h
  | cons e rest ih =>
    exact ih _ (learn_preserves_inv st e.text e.uid e.day e.hour e.fit e.kmeans h)

lemma runEvents_inv (es : List Event) : StateInv (runEvents es) :=
  runFrom_inv es initState initState_inv

lemma mem_bucketOf_appendToBucket_self (cats : List (String × List TaskRec))
    (k : String) (t : TaskRec) : t ∈ bucketOf (appendToBucket cats k t) k := by
  induction cats with
  | nil => simp [appendToBucket, bucketOf, List.find?]
  | cons p rest ih =>
    obtain ⟨k0, ts⟩ := p
    by_cases hk : k0 = k
    · subst hk
      simp [appendToBucket, bucketOf, List.find?]
    · simp only [appendToBucket, if_neg hk]
      have hbeq : (k0 == k) = false := by
        simp [hk]
      simpa [bucketOf, List.find?, hbeq] using ih

lemma bucketOf_appendToBucket_mono (cats : List (String × List TaskRec))
    (k2 : String) (t2 : TaskRec) (k : String) (t : TaskRec)
    (h : t ∈ bucketOf cats k) : t ∈ bucketOf (appendToBucket cats k2 t2) k := by
  induction cats with
  | nil =>
    simp [bucketOf, List.find?] at h
  | cons p rest ih =>
    obtain ⟨k0, ts⟩ := p
    by_cases hk : k0 = k2
    · subst hk
      simp only [appendToBucket, if_pos rfl]
      by_cases hkk : k0 == k
      · simp only [bucketOf, List.find?, hkk] at h ⊢
        simp at h ⊢
        exact Or.inl h
      · simp only [bucketOf, List.find?, hkk] at h ⊢
        exact h
    · simp only [appendToBucket, if_neg hk]
      by_cases hkk : k0 == k
      · simp only [bucketOf, List.find?, hkk] at h ⊢
        exact h
      · simp only [bucketOf, List.find?, hkk] at h ⊢
        exact ih h

lemma mem_bucketOf_foldl (l : List TaskRec) (acc : List (String × List TaskRec))
    (k : String) (t : TaskRec) (h : t ∈ bucketOf acc k) :
    t ∈ bucketOf (l.foldl (fun cats x => appendToBucket cats (simpleBucket x.text) x) acc) k := by
  induction l generalizing acc with
  | nil => exact h
  | cons x rest ih =>
    exact ih _ (bucketOf_appendToBucket_mono acc (simpleBucket x.text) x k t h)

lemma mem_bucketOf_simple_categorize (ud : Profile) (t : TaskRec) (ht : t ∈ ud.tasks) :
    t ∈ bucketOf (simple_categorize ud).categories (simpleBucket t.text) := by
  show t ∈ bucketOf
    (ud.tasks.foldl (fun cats x => appendToBucket cats (simpleBucket x.text) x) []) _
  obtain ⟨l1, l2, heq⟩ := List.append_of_mem ht
  rw [heq, List.foldl_append]
  simp only [List.foldl_cons]
  exact mem_bucketOf_foldl l2 _ _ t
    (mem_bucketOf_appendToBucket_self _ (simpleBucket t.text) t)

lemma simpleBucket_mem_five (text : String) :
    simpleBucket text ∈ ["shopping", "work", "health", "home", "general"] := by
  unfold simpleBucket
  repeat' split
  all_goals simp

lemma conf_min_bound {q c : ℚ} (hq : 0 ≤ q) (hc0 : 0 ≤ c) (hc1 : c ≤ 1) :
    0 ≤ min q c ∧ min q c ≤ 1 :=
  ⟨le_min hq hc0, le_trans (min_le_right q c) hc1⟩

lemma mem_of_ite_nil {α : Type} {P : Prop} [Decidable P] {l : List α} {a : α}
    (h : a ∈ if P then l else []) : a ∈ l := by
  split at h
  · exact h
  · simp at h

lemma time_based_conf_bounds (ud : Profile) (now : PyTime) :
    ∀ s ∈ get_time_based_suggestions ud now, 0 ≤ s.confidence ∧ s.confidence ≤ 1 := by
  intro s hs
  simp only [get_time_based_suggestions] at hs
  rw [List.mem_append] at hs
  rcases hs with hs | hs
  · have hs2 := mem_of_ite_nil hs
    rw [List.mem_singleton] at hs2
    subst hs2
    exact conf_min_bound (div_nonneg (Nat.cast_nonneg _) (by norm_num))
      (by norm_num) (by norm_num)
  · have hs2 := mem_of_ite_nil hs
    rw [List.mem_map] at hs2
    obtain ⟨tc, _, rfl⟩ := hs2
    exact conf_min_bound (div_nonneg (Nat.cast_nonneg _) (Nat.cast_nonneg _))
      (by norm_num) (by norm_num)

lemma category_conf_bounds (ud : Profile) :
    ∀ s ∈ get_category_suggestions ud, 0 ≤ s.confidence ∧ s.confidence ≤ 1 := by
  intro s hs
  simp only [get_category_suggestions, List.mem_map] at hs
  obtain ⟨p, _, rfl⟩ := hs
  exact conf_min_bound (div_nonneg (Nat.cast_nonneg _) (by norm_num))
    (by norm_num) (by norm_num)

lemma similarity_conf_bounds (ud : Profile) :
    ∀ s ∈ get_similarity_suggestions ud, 0 ≤ s.confidence ∧ s.confidence ≤ 1 := by
  intro s hs
  simp only [get_similarity_suggestions] at hs
  split at hs
  · simp at hs
  · split at hs
    · simp at hs
    · rw [List.mem_map] at hs
      obtain ⟨tc, _, rfl⟩ := hs
      exact conf_min_bound (div_nonneg (Nat.cast_nonneg _) (by norm_num))
        (by norm_num) (by norm_num)

lemma default_suggestions_shape (hour : Nat) :
    (default_suggestions hour).length ≤ 5 ∧
    List.Sorted sugGE (default_suggestions hour) ∧
    ∀ s ∈ default_suggestions hour, 0 ≤ s.confidence ∧ s.confidence ≤ 1 := by
  unfold default_suggestions
  repeat' split
  all_goals refine ⟨by norm_num, ?_, fun s hs => ?_⟩
  all_goals try (fin_cases hs <;> norm_num)
  all_goals (simp [List.sorted_cons, sugGE]; try norm_num)

/-- C1: `predict_category(text, userId)` is the static keyword-substring
classification of the lower-cased text alone — independent of the user
identifier and of any learned per-user state (the method is static and
reads no state) — with the rules tried in the fixed precedence order
development, work, shopping, health, home, then general, and the three
spec examples evaluate as stated. -/
theorem predict_is_pure_keyword_classification (text u v : String) :
    predict_category text u = predict_category text v ∧
    predict_category text u = keyword_classify (lowerStr text) ∧
    predict_category "fix bug in login" u = "development" ∧
    predict_category "pick up dry cleaning" u = "shopping" ∧
    predict_category "random thought" u = "general" :=
  ⟨rfl, rfl, rfl, rfl, rfl⟩

/-- C7: the cluster count used whenever clustering is attempted is
`clamp(n_tasks // 3, 2, 3)` — the discovery step consults the KMeans oracle
only at `n_clusters_of n_tasks`, which equals the clamp, with the spec's
four sample values. -/
theorem cluster_count_is_clamp :
    (∀ n : Nat, n_clusters_of n = min (max (n / 3) 2) 3) ∧
    n_clusters_of 4 = 2 ∧ n_clusters_of 6 = 2 ∧ n_clusters_of 9 = 3 ∧ n_clusters_of 12 = 3 ∧
    ∀ (ud : Profile) (k1 k2 : Nat → KMeansOutcome),
      k1 (n_clusters_of ud.task_texts.length) = k2 (n_clusters_of ud.task_texts.length) →
      discover_categories ud k1 = discover_categories ud k2 := by
  refine ⟨?_, by decide, by decide, by decide, by decide, ?_⟩
  · intro n
    unfold n_clusters_of
    omega
  · intro ud k1 k2 hk
    unfold discover_categories
    rw [hk]

theorem cluster_count_is_clamp_witness :
    (fun _ => KMeansOutcome.failed : Nat → KMeansOutcome) (n_clusters_of ud4.task_texts.length)
        = (fun n => if n = 2 then KMeansOutcome.failed else KMeansOutcome.ok [])
          (n_clusters_of ud4.task_texts.length) ∧
    discover_categories ud4 (fun _ => KMeansOutcome.failed)
      = discover_categories ud4 (fun n => if n = 2 then KMeansOutcome.failed
          else KMeansOutcome.ok []) :=
  ⟨by decide, cluster_count_is_clamp.2.2.2.2.2 ud4 _ _ (by decide)⟩

/-- C10: a learn call for user `u` leaves every field of any other user's
profile unchanged — tasks, task texts, vector space, categories and time
patterns of `v ≠ u` are identical before and after. -/
theorem learn_frame_other_users (st : LearnerState) (text u : String) (day hour : Nat)
    (fit : FitOutcome) (km : Nat → KMeansOutcome) (v : String) (hvu : v ≠ u) :
    ((learn_from_task st text u day hour fit km) v).tasks = (st v).tasks ∧
    ((learn_from_task st text u day hour fit km) v).task_texts = (st v).task_texts ∧
    ((learn_from_task st text u day hour fit km) v).vectors = (st v).vectors ∧
    ((learn_from_task st text u day hour fit km) v).categories = (st v).categories ∧
    ((learn_from_task st text u day hour fit km) v).time_patterns = (st v).time_patterns := by
  have h := learn_from_task_other st text u day hour fit km v hvu
  rw [h]
  exact ⟨rfl, rfl, rfl, rfl, rfl⟩

theorem learn_frame_other_users_witness :
    ("bob" : String) ≠ "alice" ∧
    ((learn_from_task initState "buy milk" "alice" 0 9 FitOutcome.failed kmFail) "bob").tasks
      = (initState "bob").tasks :=
  ⟨by decide,
    (learn_frame_other_users initState "buy milk" "alice" 0 9 FitOutcome.failed kmFail
      "bob" (by decide)).1⟩

/-- State after recording `water plants` twice for user `u` on weekday 2 at
hour 14 (both sklearn oracles irrelevant: only 2 texts are stored). -/
def stWater : LearnerState :=
  learn_from_task
    (learn_from_task initState "water plants" "u" 2 14 FitOutcome.failed kmFail)
    "water plants" "u" 2 14 FitOutcome.failed kmFail

/-- C3: evaluation showing the time-pattern key bug. The learner stores
every text under the single key `f"{day}_{hour}"` (here `"2_14"`), never
under the `"day_2_hour_14"` key nor under the coarse bucket key
`"afternoon"` that the suggester (and the claim) expect, so even after two
tasks recorded at the same weekday and hour the time-based suggestion
generator finds nothing. -/
theorem time_pattern_keys_never_match_suggester :
    (stWater "u").time_patterns "2_14" = ["water plants", "water plants"] ∧
    (stWater "u").time_patterns "day_2_hour_14" = [] ∧
    (stWater "u").time_patterns "afternoon" = [] ∧
    (stWater "u").tasks.length = 2 ∧
    get_time_based_suggestions (stWater "u") ⟨2, 14⟩ = [] := by
  refine ⟨by decide, by decide, by decide, by decide, by decide⟩

/-- C2 counterexample: for a user with exactly 3 recorded tasks (fewer than
4), a re-fit leaves `categories` empty instead of applying the keyword
fallback — even under a KMeans oracle that would fail — because
`_simple_categorize` runs only in the `except` arm and nothing is attempted
when `n_tasks < 4`. This falsifies the claim, which asserts the fallback
is applied whenever clustering fails OR the user has fewer than 4 tasks. -/
theorem refit_three_tasks_keeps_categories_empty :
    ud3.tasks.length = 3 ∧
    (update_learning ud3 (FitOutcome.ok []) kmFail).categories = [] ∧
    (simple_categorize ud3).categories =
      [("shopping", [tMilk]), ("work", [tMom]), ("health", [tRun])] ∧
    (update_learning ud3 (FitOutcome.ok []) kmFail).categories ≠
      (simple_categorize ud3).categories := by
  refine ⟨by decide, by decide, by decide, by decide⟩

/-- C2 amended: during category discovery the keyword fallback
`simple_categorize` is applied exactly when clustering is attempted
(`n_tasks ≥ 4`) and the clustering step fails; it then buckets every task
of the whole history into one of shopping, work, health, home, general.
When the user has fewer than 4 recorded tasks the discovery step leaves the
profile — in particular its categories — unchanged. -/
theorem discover_fallback_on_failure (ud : Profile) (km : Nat → KMeansOutcome) :
    (4 ≤ ud.task_texts.length →
      km (n_clusters_of ud.task_texts.length) = KMeansOutcome.failed →
      discover_categories ud km = simple_categorize ud) ∧
    (ud.task_texts.length < 4 → discover_categories ud km = ud) ∧
    ∀ t ∈ ud.tasks,
      simpleBucket t.text ∈ ["shopping", "work", "health", "home", "general"] ∧
      t ∈ bucketOf (simple_categorize ud).categories (simpleBucket t.text) := by
  refine ⟨?_, ?_, ?_⟩
  · intro h4 hfail
    unfold discover_categories
    rw [if_pos h4, hfail]
  · intro h4
    unfold discover_categories
    rw [if_neg (by omega)]
  · intro t ht
    exact ⟨simpleBucket_mem_five t.text, mem_bucketOf_simple_categorize ud t ht⟩

theorem discover_fallback_on_failure_witness :
    discover_categories ud4 kmFail = simple_categorize ud4 ∧
    discover_categories ud3 kmFail = ud3 ∧
    tMilk ∈ bucketOf (simple_categorize ud4).categories (simpleBucket tMilk.text) :=
  ⟨(discover_fallback_on_failure ud4 kmFail).1 (by decide) (by decide),
    (discover_fallback_on_failure ud3 kmFail).2.1 (by decide),
    ((discover_fallback_on_failure ud4 kmFail).2.2 tMilk (by decide)).2⟩

/-- C9: `simple_categorize` assigns each task to the first matching bucket
in the order shopping, work, health, home, falling back to general, and on
the scenario history `buy milk`, `call mom`, `go for a run`, `buy bread` it
produces exactly the assignment shopping = [buy milk, buy bread], work =
[call mom], health = [go for a run]. -/
theorem simple_categorize_first_match (ud : Profile) :
    (∀ t ∈ ud.tasks, t ∈ bucketOf (simple_categorize ud).categories (simpleBucket t.text)) ∧
    (∀ text : String,
      (containsAny (lowerStr text) simpleShopWords = true → simpleBucket text = "shopping") ∧
      (containsAny (lowerStr text) simpleShopWords = false →
        containsAny (lowerStr text) simpleWorkWords = true → simpleBucket text = "work") ∧
      (containsAny (lowerStr text) simpleShopWords = false →
        containsAny (lowerStr text) simpleWorkWords = false →
        containsAny (lowerStr text) simpleHealthWords = true → simpleBucket text = "health") ∧
      (containsAny (lowerStr text) simpleShopWords = false →
        containsAny (lowerStr text) simpleWorkWords = false →
        containsAny (lowerStr text) simpleHealthWords = false →
        containsAny (lowerStr text) simpleHomeWords = true → simpleBucket text = "home") ∧
      (containsAny (lowerStr text) simpleShopWords = false →
        containsAny (lowerStr text) simpleWorkWords = false →
        containsAny (lowerStr text) simpleHealthWords = false →
        containsAny (lowerStr text) simpleHomeWords = false → simpleBucket text = "general")) ∧
    (simple_categorize ud4).categories =
      [("shopping", [tMilk, tBread]), ("work", [tMom]), ("health", [tRun])] := by
  refine ⟨fun t ht => mem_bucketOf_simple_categorize ud t ht, ?_, by decide⟩
  intro text
  refine ⟨?_, ?_, ?_, ?_, ?_⟩ <;>
    · intros
      simp only [simpleBucket]
      simp [*]

theorem simple_categorize_first_match_witness :
    tMilk ∈ ud4.tasks ∧
    tMilk ∈ bucketOf (simple_categorize ud4).categories (simpleBucket tMilk.text) ∧
    simpleBucket "call mom" = "work" :=
  ⟨by decide,
    (simple_categorize_first_match ud4).1 tMilk (by decide),
    ((simple_categorize_first_match ud4).2.1 "call mom").2.1 (by decide) (by decide)⟩

/-- C5: for a user with no recorded tasks, `get_suggestions` returns the
literal time-of-day default table rows, with exactly the claimed hour
boundaries: hour 5 and hour 21 give the night default, hour 6 the two
morning defaults, hour 11 the peak-productivity default and hour 17 the
evening default. -/
theorem no_history_gives_time_of_day_defaults (st : LearnerState) (u : String) (d : Nat)
    (h : (load_user_data st u).tasks = []) :
    get_suggestions st u ⟨d, 5⟩ =
      [⟨"Prepare for tomorrow", "Wind down routine", 0.5, "default"⟩] ∧
    get_suggestions st u ⟨d, 6⟩ =
      [⟨"Plan your day", "Good morning routine", 0.6, "default"⟩,
        ⟨"Check your calendar", "Start day organized", 0.5, "default"⟩] ∧
    get_suggestions st u ⟨d, 11⟩ =
      [⟨"Focus on important work", "Peak productivity time", 0.7, "default"⟩] ∧
    get_suggestions st u ⟨d, 17⟩ =
      [⟨"Plan tomorrow", "Evening planning", 0.7, "default"⟩] ∧
    get_suggestions st u ⟨d, 21⟩ =
      [⟨"Prepare for tomorrow", "Wind down routine", 0.5, "default"⟩] := by
  refine ⟨?_, ?_, ?_, ?_, ?_⟩ <;>
    · unfold get_suggestions
      rw [if_pos h]
      rfl

theorem no_history_gives_time_of_day_defaults_witness :
    (load_user_data initState "u0").tasks = [] ∧
    get_suggestions initState "u0" ⟨2, 6⟩ =
      [⟨"Plan your day", "Good morning routine", 0.6, "default"⟩,
        ⟨"Check your calendar", "Start day organized", 0.5, "default"⟩] :=
  ⟨rfl, (no_history_gives_time_of_day_defaults initState "u0" 2 rfl).2.1⟩

/-- C6: for every user and time, `get_suggestions` returns at most 5
entries, sorted by confidence descending (the embedded sort is the stable
sort Python uses, so ties keep generation order), and every confidence lies
in the interval from 0 to 1. -/
theorem suggestions_sorted_bounded (st : LearnerState) (user_id : String) (now : PyTime) :
    (get_suggestions st user_id now).length ≤ 5 ∧
    List.Sorted sugGE (get_suggestions st user_id now) ∧
    ∀ s ∈ get_suggestions st user_id now, 0 ≤ s.confidence ∧ s.confidence ≤ 1 := by
  unfold get_suggestions
  by_cases h : (load_user_data st user_id).tasks = []
  · rw [if_pos h]
    exact default_suggestions_shape now.hour
  · rw [if_neg h]
    refine ⟨List.length_take_le _ _, ?_, fun s hs => ?_⟩
    · exact List.Pairwise.sublist (List.take_sublist _ _)
        (List.sorted_insertionSort sugGE _)
    · have h1 := List.mem_of_mem_take hs
      have h2 := (List.perm_insertionSort sugGE _).mem_iff.mp h1
      simp only [List.mem_append] at h2
      rcases h2 with (h3 | h3) | h3
      · exact time_based_conf_bounds _ now s h3
      · exact category_conf_bounds _ s h3
      · exact similarity_conf_bounds _ s h3

/-- C8: a user whose recorded task count is below 3 has empty categories
and no fitted vector space; `predict` is the pure keyword classification for
every user; a learn call that keeps the count below 3 performs no re-fit
(its result does not depend on the sklearn oracles); and the learn call
that brings the count to 3 is the first that runs the re-fit, storing the
vector matrix the fit produced. -/
theorem low_data_profile_inert (es : List Event) (u text : String) (day hour : Nat)
    (fit fit2 : FitOutcome) (km km2 : Nat → KMeansOutcome) (v : Vectors) :
    (((runEvents es) u).tasks.length < 3 →
      ((runEvents es) u).categories = [] ∧ ((runEvents es) u).vectors = none) ∧
    (∀ t u2 : String, predict_category t u2 = keyword_classify (lowerStr t)) ∧
    (((runEvents es) u).tasks.length + 1 < 3 →
      learn_from_task (runEvents es) text u day hour fit km
        = learn_from_task (runEvents es) text u day hour fit2 km2) ∧
    (((runEvents es) u).tasks.length = 2 →
      ((learn_from_task (runEvents es) text u day hour (FitOutcome.ok v) km) u).vectors
        = some v) := by
  obtain ⟨hlen_eq, himp⟩ := runEvents_inv es u
  refine ⟨?_, fun _ _ => rfl, ?_, ?_⟩
  · intro h
    exact himp (by omega)
  · intro h
    have hlen : ¬ (3 ≤ (((runEvents es) u).task_texts ++ [text]).length) := by
      rw [List.length_append]
      simp only [List.length_cons, List.length_nil]
      omega
    simp only [learn_from_task, if_neg hlen]
  · intro h
    have htex : ((runEvents es) u).task_texts.length = 2 := by omega
    rw [learn_from_task_self]
    rw [if_pos (by omega)]
    rw [ltp_vectors]
    unfold update_learning
    rw [discover_vectors]

/-- Scenario run used as the concrete witness input for the low-data
properties: two tasks recorded for user `u1`. -/
def esDemo : List Event :=
  [⟨"buy milk", "u1", 0, 9, FitOutcome.failed, kmFail⟩,
   ⟨"call mom", "u1", 0, 9, FitOutcome.failed, kmFail⟩]

theorem low_data_profile_inert_witness :
    ((runEvents esDemo) "u1").tasks.length < 3 ∧
    ((runEvents esDemo) "u1").categories = [] ∧
    ((runEvents esDemo) "u1").tasks.length = 2 ∧
    ((learn_from_task (runEvents esDemo) "go for a run" "u1" 0 9 (FitOutcome.ok []) kmFail)
      "u1").vectors = some [] :=
  ⟨by decide,
    ((low_data_profile_inert esDemo "u1" "go for a run" 0 9 FitOutcome.failed FitOutcome.failed
      kmFail kmFail []).1 (by decide)).1,
    by decide,
    (low_data_profile_inert esDemo "u1" "go for a run" 0 9 FitOutcome.failed FitOutcome.failed
      kmFail kmFail []).2.2.2 (by decide)⟩

/-- C4: the similar-task lookup returns the empty sequence whenever no
vector space has been fitted for the user — in particular for every user
with fewer than 3 recorded tasks — and, being a total function, never
raises. -/
theorem similar_tasks_empty_when_unfitted (st : LearnerState) (ptext uid : String)
    (limit : Nat) (sim : String → String → ℚ) (es : List Event) (p2 u2 : String)
    (l2 : Nat) (sim2 : String → String → ℚ) :
    ((st uid).vectors = none → get_similar_tasks st ptext uid limit sim = []) ∧
    (((runEvents es) u2).tasks.length < 3 →
      get_similar_tasks (runEvents es) p2 u2 l2 sim2 = []) := by
  constructor
  · intro h
    simp only [get_similar_tasks, h]
  · intro h
    obtain ⟨hlen_eq, himp⟩ := runEvents_inv es u2
    have hnone := (himp (by omega)).2
    simp only [get_similar_tasks, hnone]

theorem similar_tasks_empty_when_unfitted_witness :
    get_similar_tasks initState "buy" "u9" 3 (fun _ _ => 0) = [] ∧
    get_similar_tasks (runEvents esDemo) "mi" "u1" 3 (fun _ _ => 0) = [] :=
  ⟨(similar_tasks_empty_when_unfitted initState "buy" "u9" 3 (fun _ _ => 0)
      esDemo "mi" "u1" 3 (fun _ _ => 0)).1 rfl,
    (similar_tasks_empty_when_unfitted initState "buy" "u9" 3 (fun _ _ => 0)
      esDemo "mi" "u1" 3 (fun _ _ => 0)).2 (by decide)⟩
